import Mathlib

/-!
Verification of the PT prior-authorization backend.

This file gives a shallow embedding, in Lean, of the state-transition logic
of the intake orchestration pipeline and of the IVR session state machine of
the backend (`app/services/ivr_service.py`, `app/services/ocr_service.py`,
`app/services/erp_service.py`, `app/services/audit_service.py`,
`app/services/portia_plan.py`), and proves the behavioural properties the
design document states about them.

Modelling conventions:
  * Python dict-backed records become Lean structures; `None` becomes
    `Option.none`.
  * `datetime.utcnow()` is modelled by an explicit `now : Nat` parameter, a
    day number; `.date()` is the identity on it and `timedelta(days=n)` adds
    `n`.  The two calls to `_now()` inside one method are modelled by the
    same parameter (the clock during the call).
  * `uuid.uuid4().hex` (a 32-character lowercase hexadecimal string) is
    modelled by an explicit parameter `List (Fin 16)` of hex digits, rendered
    through `hexLower`.
  * MongoDB collections become insertion-ordered lists of documents;
    `insert_one` appends, `update_one` with `upsert=True` replaces the first
    document matching the filter or appends when none matches, and
    `update_one` without `upsert` patches the first match and does nothing
    otherwise.
  * The external extraction collaborator (`extract_fields_with_azure`) is a
    black box returning an `ExtractedFields` payload; the pipeline takes that
    payload as a parameter.
-/

/-! ## Rule-engine data model (`ivr_service.py`) -/

/-- The benefits snapshot returned by `IVRService._benefits_summary`. -/
structure Benefits where
  coverageStart : String
  coverageEnd : String
  copayOrCoins : String
  ptVisitLimit : Nat
  ptVisitsUsed : Nat
deriving DecidableEq

/-- The authorization record returned by `IVRService.calculate_auth`.
`validFrom`/`validTo` are day numbers (the source stores their ISO strings). -/
structure AuthResult where
  authRequired : Bool
  visitsApproved : Nat
  authNumber : Option String
  validFrom : Nat
  validTo : Nat
deriving DecidableEq

/-- Lowercase hexadecimal rendering of one digit of `uuid4().hex`: values
below 10 map to `'0'`..`'9'` (code point 48 + value), the rest to
`'a'`..`'f'` (code point 87 + value). -/
def hexLower (i : Fin 16) : Char :=
  if i.val < 10 then Char.ofNat (48 + i.val) else Char.ofNat (87 + i.val)

/-- Decides whether a character is in the regex class `[0-9A-F]`. -/
def isUpperHexChar (c : Char) : Bool :=
  (decide ('0' ≤ c) && decide (c ≤ '9')) || (decide ('A' ≤ c) && decide (c ≤ 'F'))

/-- Decides whether a string matches the pattern `PT-[0-9A-F]{8}`. -/
def matchesPTPattern (s : String) : Bool :=
  match s.data with
  | 'P' :: 'T' :: '-' :: rest => decide (rest.length = 8) && rest.all isUpperHexChar
  | _ => false

/-! ## IVR session state machine (`ivr_service.py`) -/

/-- The session states of the IVR state machine (the `state` strings of the
Python session dict). -/
inductive IVRState where
  | mainMenu
  | collectMemberIdElig
  | collectMemberIdAuth
  | collectDobElig
  | collectDobAuth
  | benefitsSummary
  | checkAuthRequirement
  | ended
deriving DecidableEq

/-- An IVR session record, as created by `IVRService.start`. -/
structure Session where
  state : IVRState
  prompt : String
  dtmf : List String
  transcript : List String
  memberId : Option String
  dob : Option String
  benefits : Option Benefits
  authResult : Option AuthResult
deriving DecidableEq

/-- The payload of `IVRService.result`. -/
structure ResultView where
  benefits : Option Benefits
  authResult : Option AuthResult
deriving DecidableEq

namespace IVRService

/-- The fixed benefits snapshot `IVRService._benefits_summary`. -/
def _benefits_summary : Benefits :=
  { coverageStart := "2025-01-01"
  , coverageEnd := "2025-12-31"
  , copayOrCoins := "20% coinsurance"
  , ptVisitLimit := 12
  , ptVisitsUsed := 2 }

/-- `IVRService.start`: the fresh session record (the generated session id is
the map key and is not part of the record). -/
def start : Session :=
  { state := .mainMenu
  , prompt := "Press 1 for Eligibility and benefits, 2 for Prior authorization (PT), 0 to end"
  , dtmf := []
  , transcript := []
  , memberId := none
  , dob := none
  , benefits := none
  , authResult := none }

/-- `IVRService.dtmf` on a found session: append the digit, run the
state-specific rule, then the universal `0 → ended` rule. -/
def dtmf (s0 : Session) (digit : String) : Session :=
  let s := { s0 with dtmf := s0.dtmf ++ [digit] }
  let s :=
    if s.state = .mainMenu then
      if digit = "1" then
        { s with state := .collectMemberIdElig, prompt := "Enter member ID followed by #" }
      else if digit = "2" then
        { s with state := .collectMemberIdAuth, prompt := "Enter member ID followed by #" }
      else if digit = "0" then
        { s with state := .ended, prompt := "Goodbye" }
      else
        { s with prompt := "Invalid. Press 1 for Eligibility, 2 for Prior auth, 0 to end" }
    else if s.state = .collectMemberIdElig ∨ s.state = .collectMemberIdAuth then
      if digit = "#" then
        { s with prompt := "Enter DOB as YYYYMMDD followed by #"
               , state := if s.state = .collectMemberIdElig then .collectDobElig else .collectDobAuth }
      else
        { s with memberId := some ((s.memberId.getD "") ++ digit)
               , prompt := "Continue entering member ID, then #" }
    else if s.state = .collectDobElig ∨ s.state = .collectDobAuth then
      if digit = "#" then
        let s := { s with dob := some (s.dob.getD ""), benefits := some _benefits_summary }
        if s.state = .collectDobElig then
          { s with state := .benefitsSummary
                 , prompt := "Benefits provided. Press 9 to repeat, 0 to end" }
        else
          { s with state := .checkAuthRequirement
                 , prompt := "Checking if prior auth is required... Press 9 to repeat, 0 to end" }
      else
        { s with dob := some ((s.dob.getD "") ++ digit)
               , prompt := "Continue entering DOB, then #" }
    else if s.state = .checkAuthRequirement then
      { s with prompt := "Auth requirement evaluated. Press 9 to repeat, 0 to end" }
    else if s.state = .benefitsSummary then
      if digit = "9" then
        { s with prompt := "Benefits repeated. Press 9 to repeat, 0 to end" }
      else if digit = "0" then
        { s with state := .ended, prompt := "Goodbye" }
      else s
    else s
  if digit = "0" then { s with state := .ended, prompt := "Goodbye" } else s

/-- `IVRService.result` on a found session. -/
def result (s : Session) : ResultView :=
  { benefits := s.benefits, authResult := s.authResult }

/-- `IVRService.calculate_auth`.  `now` is the current day number and
`uuidHexDigits` the hex digits of the fresh `uuid4()` (see the modelling
conventions at the top of the file). -/
def calculate_auth (now : Nat) (uuidHexDigits : List (Fin 16)) (visits_requested : Nat) :
    AuthResult :=
  let limit := 12
  let used := 2
  let auth_required : Bool := decide (visits_requested > 6)
  let visits_approved :=
    if auth_required then max 0 (min 6 (min (limit - used) visits_requested)) else 0
  let valid_from := now
  let valid_to := now + 60
  { authRequired := auth_required
  , visitsApproved := visits_approved
  , authNumber :=
      if auth_required then
        some ("PT-" ++ String.mk (((uuidHexDigits.take 8).map hexLower).map Char.toUpper))
      else none
  , validFrom := valid_from
  , validTo := valid_to }

end IVRService

/-! ## Extraction payload (`ocr_service.py`) -/

/-- The `patient` sub-group of the extraction schema. -/
structure Patient where
  firstName : String
  lastName : String
  dob : String
deriving DecidableEq

/-- The `insurance` sub-group of the extraction schema. -/
structure Insurance where
  payerName : String
  planName : String
  groupNumber : Option String
  memberId : String
  subscriberName : String
deriving DecidableEq

/-- The `clinical` sub-group of the extraction schema. -/
structure Clinical where
  icd10Code : String
  cptCodes : List String
  visitsRequested : Nat
deriving DecidableEq

/-- The `provider` sub-group of the extraction schema. -/
structure Provider where
  referringProviderName : String
  referringProviderNpi : String
  siteOfCare : String
deriving DecidableEq

/-- The structured payload returned by the extraction collaborator. -/
structure ExtractedFields where
  patient : Patient
  insurance : Insurance
  clinical : Clinical
  provider : Provider
deriving DecidableEq

/-- `_empty_payload`: the all-empty payload the collaborator returns on any
internal failure or misconfiguration. -/
def _empty_payload : ExtractedFields :=
  { patient := { firstName := "", lastName := "", dob := "" }
  , insurance :=
      { payerName := "", planName := "", groupNumber := none
      , memberId := "", subscriberName := "" }
  , clinical := { icd10Code := "", cptCodes := [], visitsRequested := 0 }
  , provider :=
      { referringProviderName := "", referringProviderNpi := "", siteOfCare := "" } }

/-- `apply_defaults`: backfill falsy clinical fields with the fixed defaults.
In the structured model the `clinical` group is always present, so the
source's `payload.setdefault("clinical", \x7b\x7d)` is the identity; a falsy
`cptCodes` is `[]`, a falsy `icd10Code` is `""`, a falsy `visitsRequested`
is `0`. -/
def apply_defaults (payload : ExtractedFields) : ExtractedFields :=
  let c := payload.clinical
  let c := if c.cptCodes = [] then { c with cptCodes := ["97161", "97110"] } else c
  let c := if c.icd10Code = "" then { c with icd10Code := "M25.561" } else c
  let c := if c.visitsRequested = 0 then { c with visitsRequested := 8 } else c
  { payload with clinical := c }

/-! ## Record store (`erp_service.py`, `audit_service.py`, `dao/mongo.py`) -/

/-- The transcript stub persisted by the pipeline. -/
structure Transcript where
  stepsJson : List String
  dtmfJson : List String
  outcomeSummary : String
deriving DecidableEq

/-- The denormalized extracted fields `_flatten_extracted` merges onto the
intake document. -/
structure Flattened where
  patientFirst : String
  patientLast : String
  dob : String
  payerName : String
  planName : String
  groupNumber : Option String
  memberId : String
  subscriberName : String
  referringProviderName : String
  referringProviderNpi : String
  siteOfCare : String
  cptCodes : List String
  icd10Code : String
  visitsRequested : Nat
deriving DecidableEq

/-- `_flatten_extracted`. -/
def _flatten_extracted (extracted : ExtractedFields) : Flattened :=
  { patientFirst := extracted.patient.firstName
  , patientLast := extracted.patient.lastName
  , dob := extracted.patient.dob
  , payerName := extracted.insurance.payerName
  , planName := extracted.insurance.planName
  , groupNumber := extracted.insurance.groupNumber
  , memberId := extracted.insurance.memberId
  , subscriberName := extracted.insurance.subscriberName
  , referringProviderName := extracted.provider.referringProviderName
  , referringProviderNpi := extracted.provider.referringProviderNpi
  , siteOfCare := extracted.provider.siteOfCare
  , cptCodes := extracted.clinical.cptCodes
  , icd10Code := extracted.clinical.icd10Code
  , visitsRequested := extracted.clinical.visitsRequested }

/-- A document of the `pt_intakes` collection.  `fields` holds the
denormalized extracted fields once the pipeline has run (`none` before). -/
structure Intake where
  _id : String
  sourceFilePath : String
  status : String
  updatedAt : Nat
  fields : Option Flattened
deriving DecidableEq

/-- A `beforeJson`/`afterJson` snapshot of an audit event, as emitted by the
pipeline. -/
inductive Snapshot where
  | extracted (p : ExtractedFields)
  | benefits (b : Benefits)
  | auth (a : AuthResult)
deriving DecidableEq

/-- A document of the `audit_events` collection (`emit_audit`). -/
structure AuditEvent where
  entityType : String
  entityId : String
  action : String
  actorRole : String
  timestamp : Nat
  beforeJson : Option Snapshot
  afterJson : Option Snapshot
  runId : Option String
deriving DecidableEq

/-- The MongoDB database: each collection is an insertion-ordered list of
documents. -/
structure DB where
  audit_events : List AuditEvent
  eligibility_results : List (String × Benefits)
  authorization_records : List (String × AuthResult)
  call_transcripts : List (String × Transcript)
  pt_intakes : List Intake
deriving DecidableEq

/-- `update_one({"intakeId": k}, {"$set": doc}, upsert=True)` on a collection
keyed by `intakeId`: replace the first document whose key is `k`, or append
when none matches. -/
def upsertByKey {α : Type} (k : String) (v : α) : List (String × α) → List (String × α)
  | [] => [(k, v)]
  | (k0, v0) :: rest =>
      if k0 = k then (k, v) :: rest else (k0, v0) :: upsertByKey k v rest

/-- `update_one({"_id": k}, {"$set": ...})` on `pt_intakes` (no upsert):
patch the first document whose `_id` is `k`, do nothing when none matches. -/
def updateIntakeByKey (k : String) (f : Intake → Intake) : List Intake → List Intake
  | [] => []
  | i :: rest => if i._id = k then f i :: rest else i :: updateIntakeByKey k f rest

/-- `emit_audit`: insert one audit event document.  The source defaults
`actor_role` to `"system"` and `before`/`after`/`run_id` to `None`; the
model passes every argument explicitly. -/
def emit_audit (entity_type entity_id action actor_role : String) (now : Nat)
    (before after : Option Snapshot) (run_id : Option String) (db : DB) : DB :=
  { db with
    audit_events := db.audit_events ++
      [{ entityType := entity_type
       , entityId := entity_id
       , action := action
       , actorRole := actor_role
       , timestamp := now
       , beforeJson := before
       , afterJson := after
       , runId := run_id }] }

/-- `persist_results`: upsert the benefits, authorization and transcript
documents keyed by `intakeId`, then patch the intake document with the
update timestamp, `status = "saved"` and the flattened extracted fields.
The four source updates touch four distinct collections, so they are given
as one record update. -/
def persist_results (now : Nat) (intake_id : String) (extracted : ExtractedFields)
    (benefits : Benefits) (auth_result : AuthResult) (transcript : Transcript)
    (db : DB) : DB :=
  { db with
    eligibility_results := upsertByKey intake_id benefits db.eligibility_results
  , authorization_records := upsertByKey intake_id auth_result db.authorization_records
  , call_transcripts := upsertByKey intake_id transcript db.call_transcripts
  , pt_intakes :=
      updateIntakeByKey intake_id
        (fun i => { i with updatedAt := now, status := "saved"
                         , fields := some (_flatten_extracted extracted) })
        db.pt_intakes }

/-! ## Intake pipeline (`portia_plan.py`) -/

/-- `run_intake_pipeline`.  `ocr` is the payload returned by the external
extraction collaborator (`extract_fields_with_azure`); `now` and
`uuidHexDigits` model the clock and the fresh uuid of the run.  The source
also derives `image_url` from the intake's `sourceFilePath`, which only
feeds the external collaborator, and sleeps for the settling delay; neither
affects the state. -/
def run_intake_pipeline (now : Nat) (uuidHexDigits : List (Fin 16))
    (ocr : ExtractedFields) (intake_id : String) (db : DB) : DB :=
  let db := emit_audit "pt_intake" intake_id "runStarted" "system" now none none none db
  match db.pt_intakes.find? (fun i => decide (i._id = intake_id)) with
  | none => db
  | some _intake =>
    let extracted := apply_defaults ocr
    let db := emit_audit "pt_intake" intake_id "ocrExtracted" "system" now
        none (some (.extracted extracted)) none db
    let visits_requested := extracted.clinical.visitsRequested
    let benefits := IVRService._benefits_summary
    let auth := IVRService.calculate_auth now uuidHexDigits visits_requested
    let db := emit_audit "pt_intake" intake_id "eligibilityChecked" "system" now
        none (some (.benefits benefits)) none db
    let db :=
      if auth.authRequired then
        emit_audit "pt_intake" intake_id "authObtained" "system" now
          none (some (.auth auth)) none db
      else
        emit_audit "pt_intake" intake_id "authWaived" "system" now
          none (some (.auth auth)) none db
    let transcript : Transcript :=
      { stepsJson := [], dtmfJson := [], outcomeSummary := "simulated" }
    let db := persist_results now intake_id extracted benefits auth transcript db
    emit_audit "pt_intake" intake_id "saved" "system" now none none none db

/-- The actions of the audit events recorded for entity `eid`, in insertion
(timestamp) order. -/
def auditActionsFor (db : DB) (eid : String) : List String :=
  (db.audit_events.filter (fun e => decide (e.entityId = eid))).map (fun e => e.action)

/-- The number of documents of a keyed collection whose key is `k`. -/
def countKey {α : Type} (k : String) (l : List (String × α)) : Nat :=
  (l.filter (fun p => decide (p.1 = k))).length

/-! ## Concrete sample inputs used to exercise the theorems -/

/-- A freshly created intake document, as the intake-creation route writes
it before a run. -/
def sampleIntake : Intake :=
  { _id := "intake-1"
  , sourceFilePath := "/uploads/referral.png"
  , status := "created"
  , updatedAt := 0
  , fields := none }

/-- A database holding one freshly created intake and nothing else. -/
def sampleDB : DB :=
  { audit_events := []
  , eligibility_results := []
  , authorization_records := []
  , call_transcripts := []
  , pt_intakes := [sampleIntake] }

/-- A concrete 32-digit uuid hex value. -/
def sampleHex : List (Fin 16) := List.replicate 32 (10 : Fin 16)

/-! ## Helper lemmas -/

/-- Uppercasing a lowercase hex digit lands in the regex class `[0-9A-F]`. -/
lemma isUpperHexChar_toUpper_hexLower :
    ∀ i : Fin 16, isUpperHexChar (Char.toUpper (hexLower i)) = true := by decide

/-- The rendered auth number `PT-` + first 8 uppercased uuid hex digits
matches `PT-[0-9A-F]{8}`. -/
lemma matchesPTPattern_hex (ds : List (Fin 16)) (h : 8 ≤ ds.length) :
    matchesPTPattern
      ("PT-" ++ String.mk (((ds.take 8).map hexLower).map Char.toUpper)) = true := by
  have hlen : (((ds.take 8).map hexLower).map Char.toUpper).length = 8 := by
    simp [List.length_take, Nat.min_eq_left h]
  have hall : (((ds.take 8).map hexLower).map Char.toUpper).all isUpperHexChar = true := by
    rw [List.all_eq_true]
    intro c hc
    rw [List.mem_map] at hc
    obtain ⟨b, hb, rfl⟩ := hc
    rw [List.mem_map] at hb
    obtain ⟨i, _, rfl⟩ := hb
    exact isUpperHexChar_toUpper_hexLower i
  show (decide ((((ds.take 8).map hexLower).map Char.toUpper).length = 8) &&
      (((ds.take 8).map hexLower).map Char.toUpper).all isUpperHexChar) = true
  rw [hlen, hall]
  rfl

/-- One dtmf step never writes the `authResult` field of a session. -/
lemma dtmf_authResult (s : Session) (d : String) :
    (IVRService.dtmf s d).authResult = s.authResult := by
  simp only [IVRService.dtmf]
  (repeat' split) <;> rfl

/-- Any number of dtmf steps never writes the `authResult` field. -/
lemma foldl_dtmf_authResult (digits : List String) (s : Session) :
    (List.foldl IVRService.dtmf s digits).authResult = s.authResult := by
  induction digits generalizing s with
  | nil => rfl
  | cons d rest ih => rw [List.foldl_cons, ih, dtmf_authResult]

/-- One dtmf step out of `ended` stays in `ended`. -/
lemma dtmf_ended_step (s : Session) (d : String) (h : s.state = .ended) :
    (IVRService.dtmf s d).state = .ended := by
  simp only [IVRService.dtmf]
  (repeat' split) <;> simp_all

/-! ## Claim theorems: rule engine and IVR -/

/-- C1: for every non-negative `visitsRequested`, `calculate_auth` returns
`authRequired = (visitsRequested > 6)`; when `visitsRequested ≤ 6` it returns
`visitsApproved = 0` and `authNumber = null`; when `visitsRequested > 6` it
returns `visitsApproved = min(6, ptVisitLimit - ptVisitsUsed, visitsRequested)`
with `ptVisitLimit = 12` and `ptVisitsUsed = 2` (in particular
`visitsApproved ≥ 0`), and an `authNumber` matching `PT-[0-9A-F]{8}`.  The
hypothesis states that the uuid hex string has at least 8 digits (`uuid4().hex`
has 32). -/
theorem calculate_auth_spec (now : Nat) (ds : List (Fin 16)) (v : Nat)
    (h8 : 8 ≤ ds.length) :
    (IVRService.calculate_auth now ds v).authRequired = decide (v > 6) ∧
    0 ≤ (IVRService.calculate_auth now ds v).visitsApproved ∧
    (v ≤ 6 →
      (IVRService.calculate_auth now ds v).visitsApproved = 0 ∧
      (IVRService.calculate_auth now ds v).authNumber = none) ∧
    (v > 6 →
      (IVRService.calculate_auth now ds v).visitsApproved = min 6 (min (12 - 2) v) ∧
      ∃ a, (IVRService.calculate_auth now ds v).authNumber = some a ∧
        matchesPTPattern a = true) := by
  refine ⟨rfl, Nat.zero_le _, ?_, ?_⟩
  · intro hv
    have hd : decide (v > 6) = false := decide_eq_false (by omega)
    simp [IVRService.calculate_auth, hd]
  · intro hv
    have hd : decide (v > 6) = true := decide_eq_true hv
    refine ⟨?_, ?_⟩
    · simp [IVRService.calculate_auth, hd]
    · exact ⟨_, by simp [IVRService.calculate_auth, hd], matchesPTPattern_hex ds h8⟩

/-- Witness for C1: `calculate_auth` at `visitsRequested = 7` and at
`visitsRequested = 3`, with the concrete 32-digit uuid `sampleHex`. -/
theorem calculate_auth_spec_witness :
    (8 ≤ sampleHex.length ∧
      ((IVRService.calculate_auth 0 sampleHex 7).authRequired = decide (7 > 6) ∧
       0 ≤ (IVRService.calculate_auth 0 sampleHex 7).visitsApproved ∧
       (7 ≤ 6 →
         (IVRService.calculate_auth 0 sampleHex 7).visitsApproved = 0 ∧
         (IVRService.calculate_auth 0 sampleHex 7).authNumber = none) ∧
       (7 > 6 →
         (IVRService.calculate_auth 0 sampleHex 7).visitsApproved = min 6 (min (12 - 2) 7) ∧
         ∃ a, (IVRService.calculate_auth 0 sampleHex 7).authNumber = some a ∧
           matchesPTPattern a = true))) ∧
    ((IVRService.calculate_auth 0 sampleHex 3).authRequired = decide (3 > 6) ∧
      0 ≤ (IVRService.calculate_auth 0 sampleHex 3).visitsApproved ∧
      (3 ≤ 6 →
        (IVRService.calculate_auth 0 sampleHex 3).visitsApproved = 0 ∧
        (IVRService.calculate_auth 0 sampleHex 3).authNumber = none) ∧
      (3 > 6 →
        (IVRService.calculate_auth 0 sampleHex 3).visitsApproved = min 6 (min (12 - 2) 3) ∧
        ∃ a, (IVRService.calculate_auth 0 sampleHex 3).authNumber = some a ∧
          matchesPTPattern a = true)) :=
  ⟨⟨by decide, calculate_auth_spec 0 sampleHex 7 (by decide)⟩,
   calculate_auth_spec 0 sampleHex 3 (by decide)⟩

/-- C7: for every authorization returned by `calculate_auth`, `validTo`
minus `validFrom` is exactly 60 days. -/
theorem calculate_auth_validity_60_days (now : Nat) (ds : List (Fin 16)) (v : Nat) :
    (IVRService.calculate_auth now ds v).validTo -
      (IVRService.calculate_auth now ds v).validFrom = 60 := by
  simp [IVRService.calculate_auth]

/-- C4: in every state, a dtmf `"0"` forces the session to `ended` with
prompt `"Goodbye"`, overriding whatever the state-specific rule produced. -/
theorem dtmf_zero_forces_ended (s : Session) :
    (IVRService.dtmf s "0").state = .ended ∧
    (IVRService.dtmf s "0").prompt = "Goodbye" := by
  simp only [IVRService.dtmf]
  (repeat' split) <;> simp_all

/-- C10: `ended` is absorbing — from a session in state `ended`, any
sequence of dtmf inputs leaves the state at `ended`. -/
theorem ended_absorbing (s : Session) (digits : List String) (h : s.state = .ended) :
    (List.foldl IVRService.dtmf s digits).state = .ended := by
  induction digits generalizing s with
  | nil => exact h
  | cons d rest ih => exact ih _ (dtmf_ended_step s d h)

/-- Witness for C10: the session obtained by pressing `0` at the main menu
is in state `ended` and stays there over the inputs `5`, `1`, `#`, `9`. -/
theorem ended_absorbing_witness :
    (IVRService.dtmf IVRService.start "0").state = .ended ∧
    (List.foldl IVRService.dtmf (IVRService.dtmf IVRService.start "0")
      ["5", "1", "#", "9"]).state = .ended :=
  ⟨by decide,
   ended_absorbing (IVRService.dtmf IVRService.start "0") ["5", "1", "#", "9"] (by decide)⟩

/-- C9: on a fresh session, no sequence of dtmf inputs ever populates
`authResult`, and `result` on such a session returns `authResult = null` —
the IVR session flow itself never invokes `calculate_auth`. -/
theorem session_authResult_always_none (digits : List String) :
    (List.foldl IVRService.dtmf IVRService.start digits).authResult = none ∧
    (IVRService.result (List.foldl IVRService.dtmf IVRService.start digits)).authResult
      = none := by
  have h := foldl_dtmf_authResult digits IVRService.start
  exact ⟨h, h⟩

/-- C3 counterexample: the dtmf sequence
`2, 1, 2, 3, #, 1, 9, 9, 0, 0, 1, 0, 1, #` does NOT leave the session in
`checkAuthRequirement` — it ends in `ended`, because the universal rule
turns the first `0` of the DOB into a hang-up. -/
theorem dtmf_trace_counterexample :
    (List.foldl IVRService.dtmf IVRService.start
        ["2", "1", "2", "3", "#", "1", "9", "9", "0", "0", "1", "0", "1", "#"]).state
      ≠ IVRState.checkAuthRequirement := by decide

/-- C3 amended: the sequence drives the session from `mainMenu` to
`collectMemberIdAuth` (member-id buffer `"123"`), then past `#` to
`collectDobAuth` (DOB buffer reaching `"199"`), but the first `0` of the
DOB triggers the universal hang-up rule: the DOB buffer stops at `"1990"`
and the session ends — and stays — in state `ended` with prompt
`"Goodbye"`. -/
theorem dtmf_trace_amended :
    (List.foldl IVRService.dtmf IVRService.start ["2"]).state
      = IVRState.collectMemberIdAuth ∧
    (List.foldl IVRService.dtmf IVRService.start ["2", "1", "2", "3"]).state
      = IVRState.collectMemberIdAuth ∧
    (List.foldl IVRService.dtmf IVRService.start ["2", "1", "2", "3"]).memberId
      = some "123" ∧
    (List.foldl IVRService.dtmf IVRService.start ["2", "1", "2", "3", "#"]).state
      = IVRState.collectDobAuth ∧
    (List.foldl IVRService.dtmf IVRService.start
        ["2", "1", "2", "3", "#", "1", "9", "9"]).dob = some "199" ∧
    (List.foldl IVRService.dtmf IVRService.start
        ["2", "1", "2", "3", "#", "1", "9", "9", "0"]).state = IVRState.ended ∧
    (List.foldl IVRService.dtmf IVRService.start
        ["2", "1", "2", "3", "#", "1", "9", "9", "0"]).prompt = "Goodbye" ∧
    (List.foldl IVRService.dtmf IVRService.start
        ["2", "1", "2", "3", "#", "1", "9", "9", "0"]).dob = some "1990" ∧
    (List.foldl IVRService.dtmf IVRService.start
        ["2", "1", "2", "3", "#", "1", "9", "9", "0", "0", "1", "0", "1", "#"]).state
      = IVRState.ended ∧
    (List.foldl IVRService.dtmf IVRService.start
        ["2", "1", "2", "3", "#", "1", "9", "9", "0", "0", "1", "0", "1", "#"]).memberId
      = some "123" ∧
    (List.foldl IVRService.dtmf IVRService.start
        ["2", "1", "2", "3", "#", "1", "9", "9", "0", "0", "1", "0", "1", "#"]).dob
      = some "1990" := by decide

/-- C8 counterexample: from `mainMenu`, pressing `5` keeps the state at
`mainMenu` but the re-prompt is NOT the original main-menu prompt — it is
the distinct `"Invalid. ..."` text. -/
theorem mainMenu_reprompt_counterexample :
    (IVRService.dtmf IVRService.start "5").state = IVRState.mainMenu ∧
    (IVRService.dtmf IVRService.start "5").prompt ≠ IVRService.start.prompt := by decide

/-- C8 amended: from `mainMenu`, any digit other than `1`, `2`, `0` leaves
the state at `mainMenu` and re-prompts with the fixed invalid-input text
`"Invalid. Press 1 for Eligibility, 2 for Prior auth, 0 to end"` (which
differs from the original main-menu prompt). -/
theorem mainMenu_invalid_digit (s : Session) (d : String) (h : s.state = .mainMenu)
    (h1 : d ≠ "1") (h2 : d ≠ "2") (h0 : d ≠ "0") :
    (IVRService.dtmf s d).state = .mainMenu ∧
    (IVRService.dtmf s d).prompt
      = "Invalid. Press 1 for Eligibility, 2 for Prior auth, 0 to end" := by
  simp only [IVRService.dtmf]
  (repeat' split) <;> simp_all

/-- Witness for the amended C8: the fresh session and the digit `5`. -/
theorem mainMenu_invalid_digit_witness :
    IVRService.start.state = IVRState.mainMenu ∧
    ("5" : String) ≠ "1" ∧ ("5" : String) ≠ "2" ∧ ("5" : String) ≠ "0" ∧
    ((IVRService.dtmf IVRService.start "5").state = IVRState.mainMenu ∧
     (IVRService.dtmf IVRService.start "5").prompt
       = "Invalid. Press 1 for Eligibility, 2 for Prior auth, 0 to end") :=
  ⟨rfl, by decide, by decide, by decide,
   mainMenu_invalid_digit IVRService.start "5" rfl (by decide) (by decide) (by decide)⟩

/-! ## Helper lemmas: pipeline facets -/

/-- The audit actions recorded for the intake by one run that finds the
intake: the five-element sequence, appended to whatever was there. -/
lemma run_intake_pipeline_auditActions (now : Nat) (ds : List (Fin 16))
    (ocr : ExtractedFields) (id : String) (db : DB) (it : Intake)
    (h : db.pt_intakes.find? (fun i => decide (i._id = id)) = some it) :
    auditActionsFor (run_intake_pipeline now ds ocr id db) id
      = auditActionsFor db id ++
        ["runStarted", "ocrExtracted", "eligibilityChecked",
         if (IVRService.calculate_auth now ds
              (apply_defaults ocr).clinical.visitsRequested).authRequired
         then "authObtained" else "authWaived",
         "saved"] := by
  have hpt : (emit_audit "pt_intake" id "runStarted" "system" now none none none
      db).pt_intakes = db.pt_intakes := rfl
  simp only [run_intake_pipeline, hpt]
  rw [h]
  by_cases hA : (IVRService.calculate_auth now ds
      (apply_defaults ocr).clinical.visitsRequested).authRequired
  · simp [hA, auditActionsFor, emit_audit, persist_results,
      List.filter_append, List.map_append, List.append_assoc]
  · simp [hA, auditActionsFor, emit_audit, persist_results,
      List.filter_append, List.map_append, List.append_assoc]

/-- A run that finds the intake upserts exactly the benefits document. -/
lemma run_intake_pipeline_elig (now : Nat) (ds : List (Fin 16))
    (ocr : ExtractedFields) (id : String) (db : DB) (it : Intake)
    (h : db.pt_intakes.find? (fun i => decide (i._id = id)) = some it) :
    (run_intake_pipeline now ds ocr id db).eligibility_results
      = upsertByKey id IVRService._benefits_summary db.eligibility_results := by
  have hpt : (emit_audit "pt_intake" id "runStarted" "system" now none none none
      db).pt_intakes = db.pt_intakes := rfl
  simp only [run_intake_pipeline, hpt]
  rw [h]
  by_cases hA : (IVRService.calculate_auth now ds
      (apply_defaults ocr).clinical.visitsRequested).authRequired
  · simp [hA, emit_audit, persist_results]
  · simp [hA, emit_audit, persist_results]

/-- A run that finds the intake upserts exactly the authorization document. -/
lemma run_intake_pipeline_authrec (now : Nat) (ds : List (Fin 16))
    (ocr : ExtractedFields) (id : String) (db : DB) (it : Intake)
    (h : db.pt_intakes.find? (fun i => decide (i._id = id)) = some it) :
    (run_intake_pipeline now ds ocr id db).authorization_records
      = upsertByKey id
          (IVRService.calculate_auth now ds (apply_defaults ocr).clinical.visitsRequested)
          db.authorization_records := by
  have hpt : (emit_audit "pt_intake" id "runStarted" "system" now none none none
      db).pt_intakes = db.pt_intakes := rfl
  simp only [run_intake_pipeline, hpt]
  rw [h]
  by_cases hA : (IVRService.calculate_auth now ds
      (apply_defaults ocr).clinical.visitsRequested).authRequired
  · simp [hA, emit_audit, persist_results]
  · simp [hA, emit_audit, persist_results]

/-- A run that finds the intake upserts exactly the transcript stub. -/
lemma run_intake_pipeline_transcripts (now : Nat) (ds : List (Fin 16))
    (ocr : ExtractedFields) (id : String) (db : DB) (it : Intake)
    (h : db.pt_intakes.find? (fun i => decide (i._id = id)) = some it) :
    (run_intake_pipeline now ds ocr id db).call_transcripts
      = upsertByKey id
          ({ stepsJson := [], dtmfJson := [], outcomeSummary := "simulated" } : Transcript)
          db.call_transcripts := by
  have hpt : (emit_audit "pt_intake" id "runStarted" "system" now none none none
      db).pt_intakes = db.pt_intakes := rfl
  simp only [run_intake_pipeline, hpt]
  rw [h]
  by_cases hA : (IVRService.calculate_auth now ds
      (apply_defaults ocr).clinical.visitsRequested).authRequired
  · simp [hA, emit_audit, persist_results]
  · simp [hA, emit_audit, persist_results]

/-- A run that finds the intake patches exactly the intake document. -/
lemma run_intake_pipeline_intakes (now : Nat) (ds : List (Fin 16))
    (ocr : ExtractedFields) (id : String) (db : DB) (it : Intake)
    (h : db.pt_intakes.find? (fun i => decide (i._id = id)) = some it) :
    (run_intake_pipeline now ds ocr id db).pt_intakes
      = updateIntakeByKey id
          (fun i => { i with updatedAt := now, status := "saved",
                             fields := some (_flatten_extracted (apply_defaults ocr)) })
          db.pt_intakes := by
  have hpt : (emit_audit "pt_intake" id "runStarted" "system" now none none none
      db).pt_intakes = db.pt_intakes := rfl
  simp only [run_intake_pipeline, hpt]
  rw [h]
  by_cases hA : (IVRService.calculate_auth now ds
      (apply_defaults ocr).clinical.visitsRequested).authRequired
  · simp [hA, emit_audit, persist_results]
  · simp [hA, emit_audit, persist_results]

/-- Upserting under key `k` leaves exactly one document keyed `k` when there
was at most one. -/
lemma countKey_upsertByKey {α : Type} (k : String) (v : α) (l : List (String × α)) :
    countKey k (upsertByKey k v l) = max (countKey k l) 1 := by
  induction l with
  | nil => simp [upsertByKey, countKey]
  | cons p rest ih =>
    obtain ⟨k0, v0⟩ := p
    by_cases hk : k0 = k
    · subst hk
      simp [upsertByKey, countKey, List.filter_cons]
    · simp only [upsertByKey, if_neg hk]
      simp only [countKey, List.filter_cons] at ih ⊢
      simp [hk, ih]

/-- Patching the first intake keyed `k` maps the found intake through the
patch, provided the patch preserves `_id`. -/
lemma find?_updateIntakeByKey (k : String) (f : Intake → Intake) (l : List Intake)
    (hf : ∀ i, (f i)._id = i._id) :
    (updateIntakeByKey k f l).find? (fun i => decide (i._id = k))
      = (l.find? (fun i => decide (i._id = k))).map f := by
  induction l with
  | nil => rfl
  | cons i rest ih =>
    by_cases hik : i._id = k
    · simp [updateIntakeByKey, hik, List.find?_cons, hf i]
    · simp [updateIntakeByKey, hik, List.find?_cons, ih]

/-! ## Claim theorems: intake pipeline -/

/-- C2 counterexample: one successful run for an existing intake emits five
audit actions, not six — here at a concrete fresh database holding the
intake `intake-1` and the all-empty extraction payload. -/
theorem pipeline_six_actions_counterexample :
    auditActionsFor (run_intake_pipeline 0 sampleHex _empty_payload "intake-1" sampleDB)
        "intake-1"
      = ["runStarted", "ocrExtracted", "eligibilityChecked", "authObtained", "saved"] ∧
    (auditActionsFor (run_intake_pipeline 0 sampleHex _empty_payload "intake-1" sampleDB)
        "intake-1").length ≠ 6 := by decide

/-- C2 amended: one successful run of the pipeline for an existing intake id
emits, for that intake, a fixed ordered sequence of exactly FIVE audit
actions: `runStarted`, `ocrExtracted`, `eligibilityChecked`, then
`authObtained` if `authRequired` else `authWaived`, then `saved` —
`runStarted` first, `saved` last, the middle actions in step-execution
order. -/
theorem pipeline_audit_sequence (now : Nat) (ds : List (Fin 16))
    (ocr : ExtractedFields) (id : String) (db : DB)
    (h : (db.pt_intakes.find? (fun i => decide (i._id = id))).isSome) :
    auditActionsFor (run_intake_pipeline now ds ocr id db) id
      = auditActionsFor db id ++
        ["runStarted", "ocrExtracted", "eligibilityChecked",
         if (IVRService.calculate_auth now ds
              (apply_defaults ocr).clinical.visitsRequested).authRequired
         then "authObtained" else "authWaived",
         "saved"] := by
  obtain ⟨it, hit⟩ := Option.isSome_iff_exists.mp h
  exact run_intake_pipeline_auditActions now ds ocr id db it hit

/-- Witness for the amended C2: the concrete fresh database `sampleDB`. -/
theorem pipeline_audit_sequence_witness :
    (sampleDB.pt_intakes.find? (fun i => decide (i._id = "intake-1"))).isSome ∧
    auditActionsFor (run_intake_pipeline 0 sampleHex _empty_payload "intake-1" sampleDB)
        "intake-1"
      = auditActionsFor sampleDB "intake-1" ++
        ["runStarted", "ocrExtracted", "eligibilityChecked",
         if (IVRService.calculate_auth 0 sampleHex
              (apply_defaults _empty_payload).clinical.visitsRequested).authRequired
         then "authObtained" else "authWaived",
         "saved"] :=
  ⟨by decide,
   pipeline_audit_sequence 0 sampleHex _empty_payload "intake-1" sampleDB (by decide)⟩

/-- C5: the all-empty extraction payload (the collaborator's failure mode)
still yields a completed run: `apply_defaults` backfills
`cptCodes = ["97161", "97110"]`, `icd10Code = "M25.561"`,
`visitsRequested = 8`; the authorization computed from those defaults has
`authRequired = true` (8 > 6); and the intake record ends with status
`"saved"`. -/
theorem pipeline_empty_payload_recovery (now : Nat) (ds : List (Fin 16))
    (id : String) (db : DB)
    (h : (db.pt_intakes.find? (fun i => decide (i._id = id))).isSome) :
    (apply_defaults _empty_payload).clinical.cptCodes = ["97161", "97110"] ∧
    (apply_defaults _empty_payload).clinical.icd10Code = "M25.561" ∧
    (apply_defaults _empty_payload).clinical.visitsRequested = 8 ∧
    (IVRService.calculate_auth now ds
        (apply_defaults _empty_payload).clinical.visitsRequested).authRequired = true ∧
    ∃ j, (run_intake_pipeline now ds _empty_payload id db).pt_intakes.find?
          (fun i => decide (i._id = id)) = some j ∧
      j.status = "saved" := by
  obtain ⟨it, hit⟩ := Option.isSome_iff_exists.mp h
  refine ⟨by decide, by decide, by decide, rfl, ?_⟩
  rw [run_intake_pipeline_intakes now ds _empty_payload id db it hit,
    find?_updateIntakeByKey id
      (fun i => { i with updatedAt := now, status := "saved",
                         fields := some (_flatten_extracted (apply_defaults _empty_payload)) })
      db.pt_intakes (fun i => rfl), hit]
  exact ⟨_, rfl, rfl⟩

/-- Witness for C5: the concrete fresh database `sampleDB`. -/
theorem pipeline_empty_payload_recovery_witness :
    (sampleDB.pt_intakes.find? (fun i => decide (i._id = "intake-1"))).isSome ∧
    ((apply_defaults _empty_payload).clinical.cptCodes = ["97161", "97110"] ∧
     (apply_defaults _empty_payload).clinical.icd10Code = "M25.561" ∧
     (apply_defaults _empty_payload).clinical.visitsRequested = 8 ∧
     (IVRService.calculate_auth 7 sampleHex
         (apply_defaults _empty_payload).clinical.visitsRequested).authRequired = true ∧
     ∃ j, (run_intake_pipeline 7 sampleHex _empty_payload "intake-1" sampleDB).pt_intakes.find?
           (fun i => decide (i._id = "intake-1")) = some j ∧
       j.status = "saved") :=
  ⟨by decide,
   pipeline_empty_payload_recovery 7 sampleHex "intake-1" sampleDB (by decide)⟩

/-- C6: running the pipeline twice for the same (initially fresh) intake id
leaves exactly one current benefits document, one authorization document
and one transcript document keyed by that intake id — the second run's
upsert overwrites rather than duplicates — while the audit trail
accumulates the two full audit sequences. -/
theorem pipeline_twice_idempotent (now1 now2 : Nat) (ds1 ds2 : List (Fin 16))
    (ocr1 ocr2 : ExtractedFields) (id : String) (db : DB)
    (hfound : (db.pt_intakes.find? (fun i => decide (i._id = id))).isSome)
    (he : countKey id db.eligibility_results = 0)
    (ha : countKey id db.authorization_records = 0)
    (ht : countKey id db.call_transcripts = 0) :
    countKey id
        ((run_intake_pipeline now2 ds2 ocr2 id
          (run_intake_pipeline now1 ds1 ocr1 id db)).eligibility_results) = 1 ∧
    countKey id
        ((run_intake_pipeline now2 ds2 ocr2 id
          (run_intake_pipeline now1 ds1 ocr1 id db)).authorization_records) = 1 ∧
    countKey id
        ((run_intake_pipeline now2 ds2 ocr2 id
          (run_intake_pipeline now1 ds1 ocr1 id db)).call_transcripts) = 1 ∧
    auditActionsFor
        (run_intake_pipeline now2 ds2 ocr2 id
          (run_intake_pipeline now1 ds1 ocr1 id db)) id
      = auditActionsFor db id ++
        ["runStarted", "ocrExtracted", "eligibilityChecked",
         if (IVRService.calculate_auth now1 ds1
              (apply_defaults ocr1).clinical.visitsRequested).authRequired
         then "authObtained" else "authWaived",
         "saved"] ++
        ["runStarted", "ocrExtracted", "eligibilityChecked",
         if (IVRService.calculate_auth now2 ds2
              (apply_defaults ocr2).clinical.visitsRequested).authRequired
         then "authObtained" else "authWaived",
         "saved"] := by
  obtain ⟨it, hit⟩ := Option.isSome_iff_exists.mp hfound
  have hit2 : (run_intake_pipeline now1 ds1 ocr1 id db).pt_intakes.find?
      (fun i => decide (i._id = id))
      = some { it with updatedAt := now1, status := "saved",
                       fields := some (_flatten_extracted (apply_defaults ocr1)) } := by
    rw [run_intake_pipeline_intakes now1 ds1 ocr1 id db it hit,
      find?_updateIntakeByKey id
        (fun i => { i with updatedAt := now1, status := "saved",
                           fields := some (_flatten_extracted (apply_defaults ocr1)) })
        db.pt_intakes (fun i => rfl), hit]
    rfl
  refine ⟨?_, ?_, ?_, ?_⟩
  · rw [run_intake_pipeline_elig now2 ds2 ocr2 id _ _ hit2, countKey_upsertByKey,
      run_intake_pipeline_elig now1 ds1 ocr1 id db it hit, countKey_upsertByKey, he]
    decide
  · rw [run_intake_pipeline_authrec now2 ds2 ocr2 id _ _ hit2, countKey_upsertByKey,
      run_intake_pipeline_authrec now1 ds1 ocr1 id db it hit, countKey_upsertByKey, ha]
    decide
  · rw [run_intake_pipeline_transcripts now2 ds2 ocr2 id _ _ hit2, countKey_upsertByKey,
      run_intake_pipeline_transcripts now1 ds1 ocr1 id db it hit, countKey_upsertByKey, ht]
    decide
  · rw [run_intake_pipeline_auditActions now2 ds2 ocr2 id _ _ hit2,
      run_intake_pipeline_auditActions now1 ds1 ocr1 id db it hit]

/-- Witness for C6: two runs over the concrete fresh database `sampleDB`. -/
theorem pipeline_twice_idempotent_witness :
    ((sampleDB.pt_intakes.find? (fun i => decide (i._id = "intake-1"))).isSome ∧
     countKey "intake-1" sampleDB.eligibility_results = 0 ∧
     countKey "intake-1" sampleDB.authorization_records = 0 ∧
     countKey "intake-1" sampleDB.call_transcripts = 0) ∧
    (countKey "intake-1"
        ((run_intake_pipeline 1 sampleHex _empty_payload "intake-1"
          (run_intake_pipeline 0 sampleHex _empty_payload "intake-1"
            sampleDB)).eligibility_results) = 1 ∧
     countKey "intake-1"
        ((run_intake_pipeline 1 sampleHex _empty_payload "intake-1"
          (run_intake_pipeline 0 sampleHex _empty_payload "intake-1"
            sampleDB)).authorization_records) = 1 ∧
     countKey "intake-1"
        ((run_intake_pipeline 1 sampleHex _empty_payload "intake-1"
          (run_intake_pipeline 0 sampleHex _empty_payload "intake-1"
            sampleDB)).call_transcripts) = 1 ∧
     auditActionsFor
        (run_intake_pipeline 1 sampleHex _empty_payload "intake-1"
          (run_intake_pipeline 0 sampleHex _empty_payload "intake-1" sampleDB))
        "intake-1"
      = auditActionsFor sampleDB "intake-1" ++
        ["runStarted", "ocrExtracted", "eligibilityChecked",
         if (IVRService.calculate_auth 0 sampleHex
              (apply_defaults _empty_payload).clinical.visitsRequested).authRequired
         then "authObtained" else "authWaived",
         "saved"] ++
        ["runStarted", "ocrExtracted", "eligibilityChecked",
         if (IVRService.calculate_auth 1 sampleHex
              (apply_defaults _empty_payload).clinical.visitsRequested).authRequired
         then "authObtained" else "authWaived",
         "saved"]) :=
  ⟨⟨by decide, by decide, by decide, by decide⟩,
   pipeline_twice_idempotent 0 1 sampleHex sampleHex _empty_payload _empty_payload
     "intake-1" sampleDB (by decide) (by decide) (by decide) (by decide)⟩
